import Mathlib

/-!
Verification development for the tuckr helper script (src/tuckr.py).

Shallow embedding conventions:
* Absolute POSIX paths are modelled as lists of components stored leaf
  first: `/home/u/.config` is `[".config", "u", "home"]` and the filesystem
  root `/` is `[]`.  With this orientation `os.path.dirname` is `List.tail`
  and `os.path.basename` is the head component (`""` for the root), which
  matches `posixpath` on normalized absolute paths and keeps every walk
  structurally recursive.
* The external world (the `tuckr` binary and `os.rename`) is modelled as an
  environment `Env` of three streams of outcomes, consumed one per call:
  per-group status queries (`tuckr status <g> --json`), renames
  (`os.rename`), and add invocations (`tuckr add <g>`).  Counting how far
  each stream index advanced counts the external calls a run performed.
* Parsed JSON documents are modelled as association lists of well-typed
  fields (`JField`): a field is either an array of strings or a
  conflicts-shaped mapping, the only two shapes the script consumes.  A
  top-level JSON value that is not an object is `JTop.nonObj`; using it the
  way the script does raises (Python `AttributeError`), modelled by
  `Except.error`.  `json.loads` failures are `ParseResult.err`
  (`json.JSONDecodeError`).
* Python truthiness of a parsed dict (`if not detailed_status`) is emptiness
  of the association list.
* `Stats` counters are `Int` (Python integers); every mutation in the script
  is an increment by a non-negative amount.
-/

namespace Tuckr

/-- A normalized absolute path as its list of components, leaf first;
`[]` is `/`. -/
abbrev Path := List String

/-- `os.path.dirname` on a normalized absolute path (drop the leaf). -/
def dirname (p : Path) : Path := p.tail

/-- `os.path.basename` on a normalized absolute path (`""` for the root). -/
def basename (p : Path) : String := p.headD ""

/-- One entry of a group's conflict list: `{target_path, reason}`. -/
structure ConflictEntry where
  target_path : Path
  reason : String
deriving DecidableEq

/-- The counters of class `Stats` (src/tuckr.py, lines 70-97). -/
structure Stats where
  symlinked_printed : Int := 0
  not_symlinked_processed : Int := 0
  conflicts_processed : Int := 0
  renamed_folders : Int := 0
  renamed_files : Int := 0
  added_groups : Int := 0
  unsupported_printed : Int := 0
  non_existent_printed : Int := 0
  skipped_excluded : Int := 0
  errors : Int := 0
  warnings : Int := 0
deriving DecidableEq

/-- `stats.increment("symlinked_printed", v)`. -/
def Stats.incSymlinkedPrinted (s : Stats) (v : Int) : Stats :=
  { s with symlinked_printed := s.symlinked_printed + v }

/-- `stats.increment("not_symlinked_processed")`. -/
def Stats.incNotSymlinkedProcessed (s : Stats) : Stats :=
  { s with not_symlinked_processed := s.not_symlinked_processed + 1 }

/-- `stats.increment("renamed_folders")`. -/
def Stats.incRenamedFolders (s : Stats) : Stats :=
  { s with renamed_folders := s.renamed_folders + 1 }

/-- `stats.increment("added_groups")`. -/
def Stats.incAddedGroups (s : Stats) : Stats :=
  { s with added_groups := s.added_groups + 1 }

/-- `stats.increment("unsupported_printed")`. -/
def Stats.incUnsupportedPrinted (s : Stats) : Stats :=
  { s with unsupported_printed := s.unsupported_printed + 1 }

/-- `stats.increment("non_existent_printed")`. -/
def Stats.incNonExistentPrinted (s : Stats) : Stats :=
  { s with non_existent_printed := s.non_existent_printed + 1 }

/-- `stats.increment("skipped_excluded")`. -/
def Stats.incSkippedExcluded (s : Stats) : Stats :=
  { s with skipped_excluded := s.skipped_excluded + 1 }

/-- `stats.increment("errors")` — also the effect of `_log_and_count_error`. -/
def Stats.incErrors (s : Stats) : Stats :=
  { s with errors := s.errors + 1 }

/-- `stats.increment("warnings")`. -/
def Stats.incWarnings (s : Stats) : Stats :=
  { s with warnings := s.warnings + 1 }

/-- Outcome of one `subprocess.run(["tuckr", "add", ...], check=True)`:
exit 0, `CalledProcessError`, or `FileNotFoundError`. -/
inductive AddResult where
  | ok
  | failed
  | toolMissing
deriving DecidableEq

/-- A well-typed field of a parsed JSON object: either an array of strings or
a conflicts-shaped mapping `{group: [ConflictEntry]}` (the only shapes the
script consumes). -/
inductive JField where
  | strs (xs : List String)
  | conf (m : List (String × List ConflictEntry))
deriving DecidableEq

/-- A parsed JSON object as an association list of fields. -/
abbrev Doc := List (String × JField)

/-- Outcome of one `tuckr status <group> --json` invocation as observed by
`_get_detailed_group_status` (src/tuckr.py, lines 242-261): empty stdout,
undecodable stdout, missing binary, or a parsed JSON object. -/
inductive QueryResult where
  | noOutput
  | decodeError
  | toolNotFound
  | parsed (doc : Doc)
deriving DecidableEq

/-- The external world: streams of outcomes for status queries, renames and
add invocations, with a cursor into each.  The cursors count the calls made. -/
structure Env where
  queries : Nat → QueryResult
  q : Nat
  renames : Nat → Bool
  r : Nat
  adds : Nat → AddResult
  a : Nat

/-- Consume the next status-query outcome. -/
def Env.nextQuery (e : Env) : QueryResult × Env :=
  (e.queries e.q, { e with q := e.q + 1 })

/-- Consume the next `os.rename` outcome (`true` = rename succeeded). -/
def Env.nextRename (e : Env) : Bool × Env :=
  (e.renames e.r, { e with r := e.r + 1 })

/-- Consume the next `tuckr add` outcome. -/
def Env.nextAdd (e : Env) : AddResult × Env :=
  (e.adds e.a, { e with a := e.a + 1 })

/-- Build a concrete environment from finite lists of outcomes (exhausted
streams yield the listed defaults). -/
def envOf (qs : List QueryResult) (rs : List Bool) (ads : List AddResult) : Env :=
  { queries := fun n => qs.getD n QueryResult.noOutput
    q := 0
    renames := fun n => rs.getD n false
    r := 0
    adds := fun n => ads.getD n AddResult.failed
    a := 0 }

/-- `doc.get(key)` on a parsed JSON object. -/
def lookupField (doc : Doc) (key : String) : Option JField :=
  (doc.find? (fun kv => kv.1 = key)).map (fun kv => kv.2)

/-- `status_data.get(key, [])` for an array-of-strings field. -/
def getStrs (doc : Doc) (key : String) : List String :=
  match lookupField doc key with
  | some (JField.strs xs) => xs
  | _ => []

/-- `detailed_status.get("conflicts", {})`. -/
def getConflictsMap (doc : Doc) : List (String × List ConflictEntry) :=
  match lookupField doc "conflicts" with
  | some (JField.conf m) => m
  | _ => []

/-- `detailed_status.get("conflicts", {}).get(group, [])`. -/
def getGroupConflicts (doc : Doc) (group : String) : List ConflictEntry :=
  match (getConflictsMap doc).find? (fun kv => kv.1 = group) with
  | some kv => kv.2
  | none => []

/-- `_run_tuckr_add` (src/tuckr.py, lines 140-178): on success increments
`added_groups`; a `CalledProcessError` counts an error only outside
conflict-resolution mode; a missing binary always counts an error. -/
def run_tuckr_add (group : String) (exclude_groups : List String) (stats : Stats)
    (env : Env) (is_conflict_resolution : Bool) : Bool × Stats × Env :=
  let (res, env) := env.nextAdd
  match res with
  | AddResult.ok => (true, stats.incAddedGroups, env)
  | AddResult.failed =>
      if is_conflict_resolution then (false, stats, env)
      else (false, stats.incErrors, env)
  | AddResult.toolMissing => (false, stats.incErrors, env)

/-- The backup destination `f"{original_path}-{backup_suffix}"`. -/
def backupPath (original_path : Path) (backup_suffix : String) : Path :=
  dirname original_path ++ [basename original_path ++ "-" ++ backup_suffix]

/-- `_handle_project_folder_backup` (src/tuckr.py, lines 181-211): one
`os.rename` attempt; on failure increments `errors` and returns `False`
without invoking the tool; on success increments `renamed_folders` and runs
`tuckr add` in conflict-resolution mode. -/
def handle_project_folder_backup (original_path : Path) (group : String)
    (backup_suffix : String) (exclude_groups : List String) (stats : Stats)
    (env : Env) : Bool × Stats × Env :=
  let _backup_path := backupPath original_path backup_suffix
  let (ok, env) := env.nextRename
  if ok then
    run_tuckr_add group exclude_groups stats.incRenamedFolders env true
  else
    (false, stats.incErrors, env)

/-- `_get_detailed_group_status` (src/tuckr.py, lines 242-261): one status
query; empty stdout is a warning, a decode error or missing binary is an
error, all three returning Python `None`. -/
def get_detailed_group_status (group : String) (stats : Stats) (env : Env) :
    Option Doc × Stats × Env :=
  let (res, env) := env.nextQuery
  match res with
  | QueryResult.parsed doc => (some doc, stats, env)
  | QueryResult.noOutput => (none, stats.incWarnings, env)
  | QueryResult.decodeError => (none, stats.incErrors, env)
  | QueryResult.toolNotFound => (none, stats.incErrors, env)

/-- The upward walk of `_find_project_folder` (src/tuckr.py, lines 269-273):
`while path != "/"` (the `[]` case), return the path once its base name
equals the group name, else step to the parent; reaching the root yields
`None`. -/
def findFrom (group : String) : Path → Option Path
  | [] => none
  | c :: rest =>
      if basename (c :: rest) = group then some (c :: rest)
      else findFrom group rest

/-- `_find_project_folder` (src/tuckr.py, lines 264-273): seed the walk from
the parent directory of the first conflict entry's target path.  (Python
raises `IndexError` on an empty list; the driver only calls this with a
non-empty one.) -/
def find_project_folder (group : String) (conflict_list : List ConflictEntry) :
    Option Path :=
  match conflict_list with
  | [] => none
  | e :: _ => findFrom group (dirname e.target_path)

/-- Per-group end state of the resolution driver, naming the code paths of
`_attempt_conflict_resolution` (src/tuckr.py, lines 276-323): `Resolved` is
the "conflicts resolved" branch (lines 296-298 and 319-321), `StillConflicted`
the post-loop warning branch (line 323), `Unresolvable` the "cannot find
project root" branch (lines 307-309), `QueryFailed` the early returns when a
status fetch yields nothing usable (lines 287, 313-314). -/
inductive Outcome where
  | Resolved
  | StillConflicted
  | Unresolvable
  | QueryFailed
deriving DecidableEq

/-- `max_retries = 5` (src/tuckr.py, line 291). -/
def max_retries : Nat := 5

/-- The `while retry_count < max_retries` loop of `_attempt_conflict_resolution`
(src/tuckr.py, lines 293-323), recursing on the remaining fuel
(`max_retries - retry_count`); the fuel-0 case is the final check after the
loop (lines 319-323).  Python truthiness of the refetched dict is modelled by
emptiness (`doc = []`). -/
def resolution_loop (group : String) (backup_suffix : String)
    (exclude_groups : List String) :
    Nat → Doc → Stats → Env → Outcome × Stats × Env
  | 0, detailed_status, stats, env =>
      if getGroupConflicts detailed_status group = [] then
        (Outcome.Resolved, stats.incNotSymlinkedProcessed, env)
      else
        (Outcome.StillConflicted, stats, env)
  | fuel + 1, detailed_status, stats, env =>
      let group_conflicts := getGroupConflicts detailed_status group
      if group_conflicts = [] then
        (Outcome.Resolved, stats.incNotSymlinkedProcessed, env)
      else
        match find_project_folder group group_conflicts with
        | some project_folder =>
            let (_, stats, env) :=
              handle_project_folder_backup project_folder group backup_suffix
                exclude_groups stats env
            let (res, stats, env) := get_detailed_group_status group stats env
            match res with
            | some doc =>
                if doc = [] then (Outcome.QueryFailed, stats, env)
                else resolution_loop group backup_suffix exclude_groups fuel doc stats env
            | none => (Outcome.QueryFailed, stats, env)
        | none => (Outcome.Unresolvable, stats.incWarnings, env)

/-- `_attempt_conflict_resolution` (src/tuckr.py, lines 276-323): initial
status fetch, then the bounded retry loop. -/
def attempt_conflict_resolution (group : String) (backup_suffix : String)
    (exclude_groups : List String) (stats : Stats) (env : Env) :
    Outcome × Stats × Env :=
  let (res, stats, env) := get_detailed_group_status group stats env
  match res with
  | some doc =>
      if doc = [] then (Outcome.QueryFailed, stats, env)
      else resolution_loop group backup_suffix exclude_groups max_retries doc stats env
  | none => (Outcome.QueryFailed, stats, env)

/-- `_handle_single_unlinked_group` (src/tuckr.py, lines 326-341): fetch the
group's status; on a truthy conflict list run conflict resolution, else run
`tuckr add` standalone, counting the group as processed on success. -/
def handle_single_unlinked_group (group : String) (backup_suffix : String)
    (exclude_groups : List String) (stats : Stats) (env : Env) : Stats × Env :=
  let (res, stats, env) := get_detailed_group_status group stats env
  match res with
  | some doc =>
      if doc = [] then (stats, env)
      else if getGroupConflicts doc group = [] then
        let (ok, stats, env) := run_tuckr_add group exclude_groups stats env false
        if ok then (stats.incNotSymlinkedProcessed, env) else (stats, env)
      else
        let (_, stats, env) :=
          attempt_conflict_resolution group backup_suffix exclude_groups stats env
        (stats, env)
  | none => (stats, env)

/-- The `for group in not_symlinked_groups` loop of
`_process_not_symlinked_groups` (src/tuckr.py, lines 348-353): excluded
groups are skipped with a `skipped_excluded` increment and no external call. -/
def process_group_list (backup_suffix : String) (exclude_groups : List String) :
    List String → Stats → Env → Stats × Env
  | [], stats, env => (stats, env)
  | group :: rest, stats, env =>
      if group ∈ exclude_groups then
        process_group_list backup_suffix exclude_groups rest
          stats.incSkippedExcluded env
      else
        let (stats, env) :=
          handle_single_unlinked_group group backup_suffix exclude_groups stats env
        process_group_list backup_suffix exclude_groups rest stats env

/-- `_process_not_symlinked_groups` (src/tuckr.py, lines 344-353). -/
def process_not_symlinked_groups (status_data : Doc) (backup_suffix : String)
    (exclude_groups : List String) (stats : Stats) (env : Env) : Stats × Env :=
  process_group_list backup_suffix exclude_groups
    (getStrs status_data "not_symlinked") stats env

/-- `_process_symlinked_groups` (src/tuckr.py, lines 214-219): reads the
`symlinked` key and, when non-empty, bumps `symlinked_printed` by its length. -/
def process_symlinked_groups (status_data : Doc) (stats : Stats) : Stats :=
  let symlinked_groups := getStrs status_data "symlinked"
  if symlinked_groups = [] then stats
  else stats.incSymlinkedPrinted symlinked_groups.length

/-- `_process_unsupported_groups` (src/tuckr.py, lines 222-228). -/
def process_unsupported_groups (status_data : Doc) (stats : Stats) : Stats :=
  (getStrs status_data "unsupported").foldl
    (fun s _ => s.incUnsupportedPrinted) stats

/-- `_process_non_existent_groups` (src/tuckr.py, lines 231-239): Python
`a or b` takes the `nonexistent` list when truthy, else `non_existent`. -/
def process_non_existent_groups (status_data : Doc) (stats : Stats) : Stats :=
  let a := getStrs status_data "nonexistent"
  let non_existent_groups := if a = [] then getStrs status_data "non_existent" else a
  non_existent_groups.foldl (fun s _ => s.incNonExistentPrinted) stats

/-- The lines rendered by `Stats.log_summary` (src/tuckr.py, lines 99-114):
four unconditional count lines, then exclusion/warning/error lines only when
those counters are positive.  Labels are English renderings of the logged
text; the numbers are what the script prints. -/
def log_summary (s : Stats) : List String :=
  ["Processing summary:",
   "Total groups processed: " ++
     toString (s.not_symlinked_processed + s.conflicts_processed),
   "Groups successfully added/linked: " ++ toString s.added_groups,
   "Folders renamed for backup: " ++ toString s.renamed_folders,
   "Files renamed for backup: " ++ toString s.renamed_files]
  ++ (if 0 < s.skipped_excluded
      then ["Groups skipped due to exclusion: " ++ toString s.skipped_excluded]
      else [])
  ++ (if 0 < s.warnings then ["Total warnings: " ++ toString s.warnings] else [])
  ++ (if 0 < s.errors then ["Total errors: " ++ toString s.errors] else [])

/-- The Python exception that escapes `process_conflicts` when the parsed
top-level JSON value is not an object (`status_data.keys()` on line 363). -/
inductive PyErr where
  | attributeError
deriving DecidableEq

/-- A successfully parsed top-level JSON value: an object, or anything else
(number, array, string, ...). -/
inductive JTop where
  | obj (doc : Doc)
  | nonObj
deriving DecidableEq

/-- Outcome of `json.loads` on the stdin text: a value, or
`json.JSONDecodeError`. -/
inductive ParseResult where
  | ok (v : JTop)
  | err
deriving DecidableEq

/-- `process_conflicts` (src/tuckr.py, lines 356-375), taking the `json.loads`
outcome for the stdin string.  A decode error is caught: it counts one error
and still logs the summary.  A non-object value raises `AttributeError` at
`status_data.keys()`, escaping the function before any summary (modelled as
`Except.error`).  Otherwise the four processing passes run and the summary of
the final stats is logged. -/
def process_conflicts (parse : ParseResult) (backup_suffix : String)
    (exclude_groups : List String) (env : Env) :
    Except PyErr (Stats × List String × Env) :=
  let stats : Stats := {}
  match parse with
  | ParseResult.err =>
      let stats := stats.incErrors
      Except.ok (stats, log_summary stats, env)
  | ParseResult.ok JTop.nonObj => Except.error PyErr.attributeError
  | ParseResult.ok (JTop.obj status_data) =>
      let stats := process_symlinked_groups status_data stats
      let (stats, env) :=
        process_not_symlinked_groups status_data backup_suffix exclude_groups
          stats env
      let stats := process_unsupported_groups status_data stats
      let stats := process_non_existent_groups status_data stats
      Except.ok (stats, log_summary stats, env)

/-- The final stats of a run of `process_conflicts`, when it did not raise. -/
def okStats (x : Except PyErr (Stats × List String × Env)) : Option Stats :=
  match x with
  | Except.ok (s, _, _) => some s
  | Except.error _ => none

/-- The end-of-run environment of `process_conflicts`, when it did not raise. -/
def okEnv (x : Except PyErr (Stats × List String × Env)) : Option Env :=
  match x with
  | Except.ok (_, _, e) => some e
  | Except.error _ => none

/-- Whether a run of `process_conflicts` let a Python exception escape. -/
def raises (x : Except PyErr (Stats × List String × Env)) : Bool :=
  match x with
  | Except.error _ => true
  | Except.ok _ => false

/-- The process exit code of `main` (src/tuckr.py, lines 385-443): `1` when
stdin is a TTY (line 434) or the read input is blank (line 441); otherwise
`process_conflicts` runs and `main` returns normally (exit `0`) unless the
run raised an uncaught exception (Python then exits `1`). -/
def main_exit (stdin_tty : Bool) (input_blank : Bool) (parse : ParseResult)
    (backup_suffix : String) (exclude_groups : List String) (env : Env) : Nat :=
  if stdin_tty then 1
  else if input_blank then 1
  else
    match process_conflicts parse backup_suffix exclude_groups env with
    | Except.ok _ => 0
    | Except.error _ => 1

/-- Iterated `os.path.dirname`: the `k`-th ancestor of a path. -/
def dirnameIter : Nat → Path → Path
  | 0, p => p
  | k + 1, p => dirnameIter k (dirname p)

/-- The chain of directories visited by the walk of `_find_project_folder`
starting at `p`: `p`, its parent, ..., down to (and excluding) the root. -/
def ancestorChain : Path → List Path
  | [] => []
  | c :: rest => (c :: rest) :: ancestorChain rest

/-- Modelled from the spec: the Folder Inferencer walk of §4.2 with the extra
`boundary` stop ("Stop and return `None` if the walk reaches the boundary
(the user's home directory) or the filesystem root without a match"), stated
here only for comparison with `findFrom`, which is what the code does. -/
def walkWithBoundary (group : String) (boundary : Path) : Path → Option Path
  | [] => none
  | c :: rest =>
      if c :: rest = boundary then none
      else if basename (c :: rest) = group then some (c :: rest)
      else walkWithBoundary group boundary rest

/-- Modelled from the spec: §4.2's `infer(group, conflicts, boundary)`,
seeding `walkWithBoundary` from the parent of the first conflict entry. -/
def infer_boundary (group : String) (conflicts : List ConflictEntry)
    (boundary : Path) : Option Path :=
  match conflicts with
  | [] => none
  | e :: _ => walkWithBoundary group boundary (dirname e.target_path)

theorem findFrom_eq_find (group : String) (p : Path) :
    findFrom group p = (ancestorChain p).find? (fun a => basename a = group) := by
  induction p with
  | nil => rfl
  | cons c rest ih =>
      rw [findFrom, ancestorChain]
      by_cases hb : basename (c :: rest) = group
      · rw [if_pos hb, List.find?_cons_of_pos _ (by simpa using hb)]
      · rw [if_neg hb, List.find?_cons_of_neg _ (by simpa using hb)]
        exact ih

theorem findFrom_some (group : String) (out : Path) :
    ∀ p : Path, findFrom group p = some out →
      out ≠ [] ∧ basename out = group ∧ ∃ k, out = dirnameIter k p := by
  intro p
  induction p with
  | nil =>
      intro h
      exact absurd h (by simp [findFrom])
  | cons c rest ih =>
      intro h
      rw [findFrom] at h
      by_cases hb : basename (c :: rest) = group
      · rw [if_pos hb] at h
        obtain rfl : c :: rest = out := by simpa using h
        exact ⟨List.cons_ne_nil c rest, hb, 0, rfl⟩
      · rw [if_neg hb] at h
        obtain ⟨h1, h2, k, hk⟩ := ih h
        exact ⟨h1, h2, k + 1, hk⟩

theorem run_tuckr_add_env (group : String) (x : List String) (s : Stats) (e : Env)
    (b : Bool) : (run_tuckr_add group x s e b).2.2 = { e with a := e.a + 1 } := by
  simp only [run_tuckr_add, Env.nextAdd]
  cases e.adds e.a <;> simp only [] <;> split <;> rfl

theorem handle_env_q (p : Path) (group backup_suffix : String) (x : List String)
    (s : Stats) (e : Env) :
    (handle_project_folder_backup p group backup_suffix x s e).2.2.q = e.q := by
  simp only [handle_project_folder_backup, Env.nextRename]
  split
  · rw [run_tuckr_add_env]
  · rfl

theorem handle_env_r (p : Path) (group backup_suffix : String) (x : List String)
    (s : Stats) (e : Env) :
    (handle_project_folder_backup p group backup_suffix x s e).2.2.r = e.r + 1 := by
  simp only [handle_project_folder_backup, Env.nextRename]
  split
  · rw [run_tuckr_add_env]
  · rfl

theorem get_env (group : String) (s : Stats) (e : Env) :
    (get_detailed_group_status group s e).2.2 = { e with q := e.q + 1 } := by
  simp only [get_detailed_group_status, Env.nextQuery]
  cases e.queries e.q <;> rfl

/-- Per fuel budget, the retry loop consumes the same number `k ≤ fuel` of
rename attempts and of fresh status queries: one query follows each
relocation, and the post-loop final check consumes nothing. -/
theorem resolution_loop_counts (group backup_suffix : String)
    (x : List String) :
    ∀ (fuel : Nat) (doc : Doc) (s : Stats) (e : Env), ∃ k, k ≤ fuel ∧
      (resolution_loop group backup_suffix x fuel doc s e).2.2.r = e.r + k ∧
      (resolution_loop group backup_suffix x fuel doc s e).2.2.q = e.q + k := by
  intro fuel
  induction fuel with
  | zero =>
      intro doc s e
      refine ⟨0, Nat.le_refl 0, ?_, ?_⟩
      · simp only [resolution_loop]
        split <;> rfl
      · simp only [resolution_loop]
        split <;> rfl
  | succ n ih =>
      intro doc s e
      simp only [resolution_loop]
      split
      · exact ⟨0, Nat.zero_le _, rfl, rfl⟩
      · cases hf : find_project_folder group (getGroupConflicts doc group) with
        | none => exact ⟨0, Nat.zero_le _, rfl, rfl⟩
        | some pf =>
            dsimp only
            rcases hh : handle_project_folder_backup pf group backup_suffix x s e
              with ⟨b1, s1, e1⟩
            have hq1 : e1.q = e.q := by
              have := handle_env_q pf group backup_suffix x s e
              rw [hh] at this
              exact this
            have hr1 : e1.r = e.r + 1 := by
              have := handle_env_r pf group backup_suffix x s e
              rw [hh] at this
              exact this
            dsimp only
            rcases hg : get_detailed_group_status group s1 e1 with ⟨res, s2, e2⟩
            have he2 : e2 = { e1 with q := e1.q + 1 } := by
              have := get_env group s1 e1
              rw [hg] at this
              exact this
            have hq2 : e2.q = e.q + 1 := by rw [he2]; simp [hq1]
            have hr2 : e2.r = e.r + 1 := by rw [he2]; simp [hr1]
            dsimp only
            cases res with
            | none => exact ⟨1, Nat.le_add_left 1 n, by simpa using hr2, by simpa using hq2⟩
            | some doc2 =>
                dsimp only
                split
                · exact ⟨1, Nat.le_add_left 1 n, by simpa using hr2, by simpa using hq2⟩
                · obtain ⟨k, hk, hkr, hkq⟩ := ih doc2 s2 e2
                  exact ⟨k + 1, Nat.succ_le_succ hk,
                    by rw [hkr, hr2]; omega, by rw [hkq, hq2]; omega⟩

/-- All eleven counters are non-negative. -/
def Stats.Nonneg (s : Stats) : Prop :=
  0 ≤ s.symlinked_printed ∧ 0 ≤ s.not_symlinked_processed ∧
  0 ≤ s.conflicts_processed ∧ 0 ≤ s.renamed_folders ∧ 0 ≤ s.renamed_files ∧
  0 ≤ s.added_groups ∧ 0 ≤ s.unsupported_printed ∧
  0 ≤ s.non_existent_printed ∧ 0 ≤ s.skipped_excluded ∧ 0 ≤ s.errors ∧
  0 ≤ s.warnings

theorem nonneg_init : ({} : Stats).Nonneg := by
  simp [Stats.Nonneg]

theorem nonneg_incSymlinkedPrinted {s : Stats} {v : Int} (hv : 0 ≤ v)
    (h : s.Nonneg) : (s.incSymlinkedPrinted v).Nonneg := by
  simp only [Stats.Nonneg, Stats.incSymlinkedPrinted] at h ⊢
  omega

theorem nonneg_incNotSymlinkedProcessed {s : Stats} (h : s.Nonneg) :
    s.incNotSymlinkedProcessed.Nonneg := by
  simp only [Stats.Nonneg, Stats.incNotSymlinkedProcessed] at h ⊢
  omega

theorem nonneg_incRenamedFolders {s : Stats} (h : s.Nonneg) :
    s.incRenamedFolders.Nonneg := by
  simp only [Stats.Nonneg, Stats.incRenamedFolders] at h ⊢
  omega

theorem nonneg_incAddedGroups {s : Stats} (h : s.Nonneg) :
    s.incAddedGroups.Nonneg := by
  simp only [Stats.Nonneg, Stats.incAddedGroups] at h ⊢
  omega

theorem nonneg_incUnsupportedPrinted {s : Stats} (h : s.Nonneg) :
    s.incUnsupportedPrinted.Nonneg := by
  simp only [Stats.Nonneg, Stats.incUnsupportedPrinted] at h ⊢
  omega

theorem nonneg_incNonExistentPrinted {s : Stats} (h : s.Nonneg) :
    s.incNonExistentPrinted.Nonneg := by
  simp only [Stats.Nonneg, Stats.incNonExistentPrinted] at h ⊢
  omega

theorem nonneg_incSkippedExcluded {s : Stats} (h : s.Nonneg) :
    s.incSkippedExcluded.Nonneg := by
  simp only [Stats.Nonneg, Stats.incSkippedExcluded] at h ⊢
  omega

theorem nonneg_incErrors {s : Stats} (h : s.Nonneg) : s.incErrors.Nonneg := by
  simp only [Stats.Nonneg, Stats.incErrors] at h ⊢
  omega

theorem nonneg_incWarnings {s : Stats} (h : s.Nonneg) : s.incWarnings.Nonneg := by
  simp only [Stats.Nonneg, Stats.incWarnings] at h ⊢
  omega

theorem run_tuckr_add_nonneg (group : String) (x : List String) (s : Stats)
    (e : Env) (b : Bool) (h : s.Nonneg) :
    (run_tuckr_add group x s e b).2.1.Nonneg := by
  simp only [run_tuckr_add, Env.nextAdd]
  cases e.adds e.a <;> dsimp only
  case ok => exact nonneg_incAddedGroups h
  case failed =>
      split
      · exact h
      · exact nonneg_incErrors h
  case toolMissing => exact nonneg_incErrors h

theorem handle_nonneg (p : Path) (group backup_suffix : String)
    (x : List String) (s : Stats) (e : Env) (h : s.Nonneg) :
    (handle_project_folder_backup p group backup_suffix x s e).2.1.Nonneg := by
  simp only [handle_project_folder_backup, Env.nextRename]
  split
  · exact run_tuckr_add_nonneg _ _ _ _ _ (nonneg_incRenamedFolders h)
  · exact nonneg_incErrors h

theorem get_nonneg (group : String) (s : Stats) (e : Env) (h : s.Nonneg) :
    (get_detailed_group_status group s e).2.1.Nonneg := by
  simp only [get_detailed_group_status, Env.nextQuery]
  cases e.queries e.q with
  | parsed doc => exact h
  | noOutput => exact nonneg_incWarnings h
  | decodeError => exact nonneg_incErrors h
  | toolNotFound => exact nonneg_incErrors h

theorem resolution_loop_nonneg (group backup_suffix : String)
    (x : List String) :
    ∀ (fuel : Nat) (doc : Doc) (s : Stats) (e : Env), s.Nonneg →
      (resolution_loop group backup_suffix x fuel doc s e).2.1.Nonneg := by
  intro fuel
  induction fuel with
  | zero =>
      intro doc s e h
      simp only [resolution_loop]
      split
      · exact nonneg_incNotSymlinkedProcessed h
      · exact h
  | succ n ih =>
      intro doc s e h
      simp only [resolution_loop]
      split
      · exact nonneg_incNotSymlinkedProcessed h
      · cases hf : find_project_folder group (getGroupConflicts doc group) with
        | none => exact nonneg_incWarnings h
        | some pf =>
            dsimp only
            have hs1 := handle_nonneg pf group backup_suffix x s e h
            rcases hg : get_detailed_group_status group
                (handle_project_folder_backup pf group backup_suffix x s e).2.1
                (handle_project_folder_backup pf group backup_suffix x s e).2.2
              with ⟨res, s2, e2⟩
            have hs2 : s2.Nonneg := by
              have := get_nonneg group
                (handle_project_folder_backup pf group backup_suffix x s e).2.1
                (handle_project_folder_backup pf group backup_suffix x s e).2.2 hs1
              rw [hg] at this
              exact this
            dsimp only
            cases res with
            | none => exact hs2
            | some doc2 =>
                dsimp only
                split
                · exact hs2
                · exact ih doc2 s2 e2 hs2

theorem attempt_nonneg (group backup_suffix : String) (x : List String)
    (s : Stats) (e : Env) (h : s.Nonneg) :
    (attempt_conflict_resolution group backup_suffix x s e).2.1.Nonneg := by
  simp only [attempt_conflict_resolution]
  have hs0 := get_nonneg group s e h
  rcases hg : get_detailed_group_status group s e with ⟨res, s1, e1⟩
  rw [hg] at hs0
  cases res with
  | none => exact hs0
  | some doc =>
      dsimp only
      split
      · exact hs0
      · exact resolution_loop_nonneg group backup_suffix x max_retries doc s1 e1 hs0

theorem handle_single_nonneg (group backup_suffix : String) (x : List String)
    (s : Stats) (e : Env) (h : s.Nonneg) :
    (handle_single_unlinked_group group backup_suffix x s e).1.Nonneg := by
  simp only [handle_single_unlinked_group]
  have hs0 := get_nonneg group s e h
  rcases hg : get_detailed_group_status group s e with ⟨res, s1, e1⟩
  rw [hg] at hs0
  cases res with
  | none => exact hs0
  | some doc =>
      dsimp only
      split
      · exact hs0
      · split
        · have hadd := run_tuckr_add_nonneg group x s1 e1 false hs0
          rcases ha : run_tuckr_add group x s1 e1 false with ⟨ok, s2, e2⟩
          rw [ha] at hadd
          dsimp only
          split
          · exact nonneg_incNotSymlinkedProcessed hadd
          · exact hadd
        · have hat := attempt_nonneg group backup_suffix x s1 e1 hs0
          rcases hb : attempt_conflict_resolution group backup_suffix x s1 e1
            with ⟨o2, s2, e2⟩
          rw [hb] at hat
          exact hat

theorem process_group_list_nonneg (backup_suffix : String) (x : List String) :
    ∀ (l : List String) (s : Stats) (e : Env), s.Nonneg →
      (process_group_list backup_suffix x l s e).1.Nonneg := by
  intro l
  induction l with
  | nil => intro s e h; exact h
  | cons g rest ih =>
      intro s e h
      simp only [process_group_list]
      split
      · exact ih _ _ (nonneg_incSkippedExcluded h)
      · have hs1 := handle_single_nonneg g backup_suffix x s e h
        rcases hq : handle_single_unlinked_group g backup_suffix x s e
          with ⟨s1, e1⟩
        rw [hq] at hs1
        exact ih s1 e1 hs1

theorem foldl_inc_nonneg (f : Stats → Stats)
    (hf : ∀ s : Stats, s.Nonneg → (f s).Nonneg) :
    ∀ (l : List String) (s : Stats), s.Nonneg →
      (l.foldl (fun s _ => f s) s).Nonneg := by
  intro l
  induction l with
  | nil => intro s h; exact h
  | cons g rest ih => intro s h; exact ih (f s) (hf s h)

theorem process_symlinked_nonneg (doc : Doc) (s : Stats) (h : s.Nonneg) :
    (process_symlinked_groups doc s).Nonneg := by
  simp only [process_symlinked_groups]
  split
  · exact h
  · exact nonneg_incSymlinkedPrinted (Int.natCast_nonneg _) h

theorem process_unsupported_nonneg (doc : Doc) (s : Stats) (h : s.Nonneg) :
    (process_unsupported_groups doc s).Nonneg :=
  foldl_inc_nonneg Stats.incUnsupportedPrinted
    (fun _ hs => nonneg_incUnsupportedPrinted hs) _ s h

theorem process_non_existent_nonneg (doc : Doc) (s : Stats) (h : s.Nonneg) :
    (process_non_existent_groups doc s).Nonneg :=
  foldl_inc_nonneg Stats.incNonExistentPrinted
    (fun _ hs => nonneg_incNonExistentPrinted hs) _ s h

/-! Concrete scenario data used by the per-claim theorems. -/

/-- C1 scenario: two conflict entries under unrelated paths (`/a/b/f1` and
`/c/d/f2`), the group name `g` nowhere in either ancestry. -/
def docScenC1 : Doc :=
  [("conflicts", JField.conf [("g",
    [⟨["f1", "b", "a"], "file exists"⟩, ⟨["f2", "d", "c"], "file exists"⟩])])]

/-- C1 scenario environment: every status query reports `docScenC1`. -/
def envScenC1 : Env :=
  { queries := fun _ => QueryResult.parsed docScenC1
    q := 0
    renames := fun _ => true
    r := 0
    adds := fun _ => AddResult.ok
    a := 0 }

/-- C5 scenario input, with the spec's keys `linked` and `not_linked`:
`{"linked":["zsh"],"not_linked":[],"conflicts":{}}`. -/
def docScenC5 : Doc :=
  [("linked", JField.strs ["zsh"]), ("not_linked", JField.strs []),
   ("conflicts", JField.conf [])]

/-- C5 scenario input with the keys the code actually reads:
`{"symlinked":["zsh"],"not_symlinked":[],"conflicts":{}}`. -/
def docScenC5sym : Doc :=
  [("symlinked", JField.strs ["zsh"]), ("not_symlinked", JField.strs []),
   ("conflicts", JField.conf [])]

/-- C6 scenario: one unlinked group `nvim` whose per-group status reports a
conflict at `/home/u/.config/nvim/init.lua`. -/
def topScenC6 : Doc := [("not_symlinked", JField.strs ["nvim"])]

/-- C6 scenario per-group status document. -/
def docScenC6 : Doc :=
  [("conflicts", JField.conf [("nvim",
    [⟨["init.lua", "nvim", ".config", "u", "home"], "file exists"⟩])])]

/-- C6 scenario environment: two status queries answer, the rename and the
add succeed, then the post-add status re-query yields empty stdout. -/
def envScenC6 : Env :=
  envOf [QueryResult.parsed docScenC6, QueryResult.parsed docScenC6]
    [true] [AddResult.ok]

/-- C7 scenario per-group status: group `nvim`, conflict at
`/home/u/.config/nvim/init.lua`, so the inferred project folder is
`/home/u/.config/nvim`. -/
def docScenC7 : Doc :=
  [("conflicts", JField.conf [("nvim",
    [⟨["init.lua", "nvim", ".config", "u", "home"], "file exists"⟩])])]

/-- C7 scenario environment: the status never changes and every
`os.rename` fails (the backup destination already exists). -/
def envScenC7 : Env :=
  { queries := fun _ => QueryResult.parsed docScenC7
    q := 0
    renames := fun _ => false
    r := 0
    adds := fun _ => AddResult.failed
    a := 0 }

/-- C8 scenario input: the group `g` appears in the top-level conflicts
mapping but not in `not_symlinked`. -/
def docScenC8 : Doc :=
  [("conflicts", JField.conf [("g", [⟨["f", "b", "a"], "file exists"⟩])])]

/-! The claims. -/

/-- C1, counterexample: on a conflict list of two entries whose ancestry
nowhere matches the group name, the Folder Inferencer returns `None` and the
driver does NOT relocate each file individually: it ends the group
`Unresolvable` at once with one warning, performs zero renames
(`r` cursor untouched), and `renamed_files` stays `0`, not `2` as the claim
states. -/
theorem claim_c1_counterexample :
    (attempt_conflict_resolution "g" "backup" [] {} envScenC1).1 =
      Outcome.Unresolvable ∧
    (attempt_conflict_resolution "g" "backup" [] {} envScenC1).2.1.renamed_files
      = 0 ∧
    (attempt_conflict_resolution "g" "backup" [] {} envScenC1).2.1.renamed_files
      ≠ 2 ∧
    (attempt_conflict_resolution "g" "backup" [] {} envScenC1).2.1.warnings = 1 ∧
    (attempt_conflict_resolution "g" "backup" [] {} envScenC1).2.2.r = 0 := by
  decide

/-- C1, amended: when the conflict list is non-empty and the Folder
Inferencer returns `None`, the Resolution Driver performs no file-level
relocation at all — it increments `warnings` once and transitions to
`Unresolvable` immediately, leaving every other counter and the external
world untouched (in particular `renamed_files` is unchanged, so the
two-entry scenario ends with `renamedFiles = 0`, not `2`). -/
theorem claim_c1 (group backup_suffix : String) (exclude_groups : List String)
    (fuel : Nat) (doc : Doc) (stats : Stats) (env : Env)
    (hc : getGroupConflicts doc group ≠ [])
    (hn : find_project_folder group (getGroupConflicts doc group) = none) :
    resolution_loop group backup_suffix exclude_groups (fuel + 1) doc stats env =
      (Outcome.Unresolvable, stats.incWarnings, env) := by
  simp only [resolution_loop]
  rw [if_neg hc, hn]

/-- C1, witness: the amended theorem applied to the two-entry scenario. -/
theorem claim_c1_witness :
    resolution_loop "g" "backup" [] 5 docScenC1 {} envScenC1 =
      (Outcome.Unresolvable, Stats.incWarnings {}, envScenC1) :=
  claim_c1 "g" "backup" [] 4 docScenC1 {} envScenC1 (by decide) (by decide)

/-- C2, counterexample: with stdin not a TTY and a non-blank but
syntactically invalid status document (`json.JSONDecodeError`), the process
exit code is `0`, not the non-zero exit the claim states. -/
theorem claim_c2_counterexample :
    main_exit false false ParseResult.err "backup" [] (envOf [] [] []) = 0 := by
  decide

/-- C2, amended: a non-blank malformed status document does abort processing
immediately — no group is touched, the only effect is one `errors` increment
and the summary (which then carries a `Total errors: 1` line) — but the
process still exits `0`; a non-zero exit happens only for a TTY stdin or
blank input, which `main` checks before parsing. -/
theorem claim_c2 (backup_suffix : String) (exclude_groups : List String)
    (env : Env) :
    process_conflicts ParseResult.err backup_suffix exclude_groups env =
      Except.ok (Stats.incErrors {}, log_summary (Stats.incErrors {}), env) ∧
    (Stats.incErrors {}).errors = 1 ∧
    (Stats.incErrors {}).not_symlinked_processed = 0 ∧
    "Total errors: 1" ∈ log_summary (Stats.incErrors {}) ∧
    main_exit false false ParseResult.err backup_suffix exclude_groups env = 0 ∧
    main_exit true false ParseResult.err backup_suffix exclude_groups env = 1 ∧
    main_exit false true ParseResult.err backup_suffix exclude_groups env = 1 := by
  refine ⟨rfl, by decide, by decide, by decide, ?_, rfl, rfl⟩
  rfl

/-- C3: for every group and every behavior of the external tool, the
conflict-resolution loop performs at most `max_retries = 5` relocation
attempts (`k` renames consumed, `k ≤ 5`), and performs exactly one status
query after each relocation — in particular exactly one final query after the
last relocation (`q` advances by `k + 1` counting the initial fetch) — and
the post-loop final check consumes nothing and ends the group `Resolved`
exactly when the last-fetched status shows no conflicts, else
`StillConflicted`. -/
theorem claim_c3 (group backup_suffix : String) (exclude_groups : List String)
    (s : Stats) (e : Env) :
    (∃ k, k ≤ max_retries ∧
      (attempt_conflict_resolution group backup_suffix exclude_groups s e).2.2.r
        = e.r + k ∧
      (attempt_conflict_resolution group backup_suffix exclude_groups s e).2.2.q
        = e.q + 1 + k) ∧
    (∀ (doc : Doc) (s0 : Stats) (e0 : Env),
      resolution_loop group backup_suffix exclude_groups 0 doc s0 e0 =
        if getGroupConflicts doc group = [] then
          (Outcome.Resolved, s0.incNotSymlinkedProcessed, e0)
        else (Outcome.StillConflicted, s0, e0)) := by
  constructor
  · simp only [attempt_conflict_resolution]
    have he1 := get_env group s e
    rcases hg : get_detailed_group_status group s e with ⟨res, s1, e1⟩
    rw [hg] at he1
    have hq1 : e1.q = e.q + 1 := by rw [show e1 = _ from he1]
    have hr1 : e1.r = e.r := by rw [show e1 = _ from he1]
    cases res with
    | none => exact ⟨0, Nat.zero_le _, by simpa using hr1, by simpa using hq1⟩
    | some doc =>
        dsimp only
        split
        · exact ⟨0, Nat.zero_le _, by simpa using hr1, by simpa using hq1⟩
        · obtain ⟨k, hk, hkr, hkq⟩ := resolution_loop_counts group backup_suffix
            exclude_groups max_retries doc s1 e1
          exact ⟨k, hk, by rw [hkr, hr1], by rw [hkq, hq1]⟩
  · intro doc s0 e0
    rfl

/-- C4, counterexample: with group name `home`, conflict target
`/home/u/.config/x` and home-directory boundary `/home/u`, no ancestor below
the boundary matches, so the claimed walk must return `None` (modelled by
`walkWithBoundary` after the spec's words) — but the code has no boundary
stop and walks past `/home/u` up to `/home`, returning it. -/
theorem claim_c4_counterexample :
    find_project_folder "home"
      [⟨["x", ".config", "u", "home"], "file exists"⟩] = some ["home"] ∧
    infer_boundary "home" [⟨["x", ".config", "u", "home"], "file exists"⟩]
      ["u", "home"] = none := by
  decide

/-- C4, amended: folder inference starts from the parent of the first
conflict entry's target path and returns the first ancestor (walking upward)
whose final path component equals the group name exactly, returning `None`
only when the walk reaches the filesystem root without a match — there is no
stop at the user's home directory. -/
theorem claim_c4 (group : String) (e : ConflictEntry)
    (rest : List ConflictEntry) :
    find_project_folder group (e :: rest) =
      (ancestorChain (dirname e.target_path)).find?
        (fun a => basename a = group) ∧
    (find_project_folder group (e :: rest) = none ↔
      ∀ a ∈ ancestorChain (dirname e.target_path), basename a ≠ group) := by
  have h := findFrom_eq_find group (dirname e.target_path)
  refine ⟨h, ?_⟩
  rw [show find_project_folder group (e :: rest) =
    findFrom group (dirname e.target_path) from rfl, h, List.find?_eq_none]
  simp

/-- C5, counterexample: on the claim's exact input — keys `linked` and
`not_linked` — the code (which reads `symlinked` and `not_symlinked`) sees
no linked group at all: every counter ends `0`, so the run does not report
1 linked group. -/
theorem claim_c5_counterexample :
    okStats (process_conflicts (ParseResult.ok (JTop.obj docScenC5)) "backup"
      [] (envOf [] [] [])) = some ({} : Stats) ∧
    ({} : Stats).symlinked_printed ≠ 1 ∧ ({} : Stats).added_groups ≠ 1 := by
  decide

/-- C5, amended: the code reads the keys `symlinked` and `not_symlinked`.
For `{"symlinked":["zsh"],"not_symlinked":[],"conflicts":{}}` the run prints
the one linked group (`symlinked_printed = 1`) and ends with 0 relocations
and 0 errors; for the claim's document with keys `linked`/`not_linked` every
counter stays 0. -/
theorem claim_c5 :
    okStats (process_conflicts (ParseResult.ok (JTop.obj docScenC5sym))
      "backup" [] (envOf [] [] [])) =
      some { symlinked_printed := 1 } ∧
    ({ symlinked_printed := 1 } : Stats).renamed_folders = 0 ∧
    ({ symlinked_printed := 1 } : Stats).renamed_files = 0 ∧
    ({ symlinked_printed := 1 } : Stats).errors = 0 := by
  decide

/-- C6, counterexample: a run in which the rename and the `tuckr add`
succeed but the following status re-query returns empty stdout ends with
`added_groups = 1` while `not_symlinked_processed + conflicts_processed = 0`
(the summary's "total groups processed"), violating
`groupsLinked <= groupsAttempted`. -/
theorem claim_c6_counterexample :
    okStats (process_conflicts (ParseResult.ok (JTop.obj topScenC6)) "backup"
      [] envScenC6) =
      some { added_groups := 1, renamed_folders := 1, warnings := 1 } ∧
    ¬ (({ added_groups := 1, renamed_folders := 1, warnings := 1 } :
          Stats).added_groups ≤
        ({ added_groups := 1, renamed_folders := 1, warnings := 1 } :
          Stats).not_symlinked_processed +
        ({ added_groups := 1, renamed_folders := 1, warnings := 1 } :
          Stats).conflicts_processed) := by
  decide

/-- C6, amended: after every run of `process_conflicts` that returns (for
every input document, suffix, exclusion list and external behavior), every
summary counter is non-negative; the second half of the claim,
`groupsLinked <= groupsAttempted`, does not hold in general (see the
counterexample). -/
theorem claim_c6 (parse : ParseResult) (backup_suffix : String)
    (exclude_groups : List String) (env : Env) (s : Stats)
    (lines : List String) (env2 : Env)
    (h : process_conflicts parse backup_suffix exclude_groups env =
      Except.ok (s, lines, env2)) :
    s.Nonneg := by
  cases parse with
  | err =>
      simp only [process_conflicts] at h
      obtain ⟨rfl, -⟩ : Stats.incErrors {} = s ∧ _ := by
        have := (Except.ok.injEq _ _).mp h
        exact ⟨congrArg (fun t => t.1) this, trivial⟩
      exact nonneg_incErrors nonneg_init
  | ok v =>
      cases v with
      | nonObj => exact absurd h (by simp [process_conflicts])
      | obj doc =>
          simp only [process_conflicts] at h
          have hs : s = (process_non_existent_groups doc
              (process_unsupported_groups doc
                (process_not_symlinked_groups doc backup_suffix exclude_groups
                  (process_symlinked_groups doc {}) env).1)) := by
            have := (Except.ok.injEq _ _).mp h
            exact (congrArg (fun t => t.1) this).symm
          rw [hs]
          exact process_non_existent_nonneg _ _
            (process_unsupported_nonneg _ _
              (process_group_list_nonneg _ _ _ _ _
                (process_symlinked_nonneg _ _ nonneg_init)))

/-- C6, witness: the non-negativity theorem applied to the malformed-input
run. -/
theorem claim_c6_witness : (Stats.incErrors {}).Nonneg :=
  claim_c6 ParseResult.err "backup" [] (envOf [] [] []) (Stats.incErrors {})
    (log_summary (Stats.incErrors {})) (envOf [] [] []) rfl

/-- C7, counterexample: when the backup destination always exists (every
rename fails) and the conflict persists, the driver retries the failing
rename once per iteration: the run ends with `errors = 5`, not exactly one,
and the group ends `StillConflicted`, not `Unresolvable`. -/
theorem claim_c7_counterexample :
    (attempt_conflict_resolution "nvim" "backup" [] {} envScenC7).1 =
      Outcome.StillConflicted ∧
    (attempt_conflict_resolution "nvim" "backup" [] {} envScenC7).1 ≠
      Outcome.Unresolvable ∧
    (attempt_conflict_resolution "nvim" "backup" [] {} envScenC7).2.1.errors
      = 5 ∧
    (attempt_conflict_resolution "nvim" "backup" [] {} envScenC7).2.1.errors
      ≠ 1 := by
  decide

/-- C7, amended: one failed folder rename (destination exists) increments
`errors` by exactly one and performs no `tuckr add` for that attempt, but the
Resolution Driver does not stop there — it re-queries and retries, so a
persistently failing rename ends the group `StillConflicted` with
`errors = 5` after the retry budget (see the counterexample), not
`Unresolvable` with `errors = 1`. -/
theorem claim_c7 (original_path : Path) (group backup_suffix : String)
    (exclude_groups : List String) (stats : Stats) (env : Env)
    (h : env.renames env.r = false) :
    handle_project_folder_backup original_path group backup_suffix
      exclude_groups stats env =
      (false, stats.incErrors, { env with r := env.r + 1 }) ∧
    stats.incErrors.errors = stats.errors + 1 ∧
    stats.incErrors.renamed_folders = stats.renamed_folders := by
  refine ⟨?_, rfl, rfl⟩
  simp only [handle_project_folder_backup, Env.nextRename, h]
  rfl

/-- C7, witness: the amended theorem at a concrete failing rename. -/
theorem claim_c7_witness :
    handle_project_folder_backup ["nvim", ".config", "u", "home"] "nvim"
      "backup" [] {} (envOf [] [] []) =
      (false, Stats.incErrors {}, { envOf [] [] [] with r := 0 + 1 }) ∧
    (Stats.incErrors ({} : Stats)).errors = ({} : Stats).errors + 1 ∧
    (Stats.incErrors ({} : Stats)).renamed_folders =
      ({} : Stats).renamed_folders :=
  claim_c7 ["nvim", ".config", "u", "home"] "nvim" "backup" [] {}
    (envOf [] [] []) rfl

/-- C8, counterexample: the group `g` is passed via `--exclude` and appears
in the status document's conflicts mapping, but not in `not_symlinked`; the
run never iterates it, so `skipped_excluded` stays `0` (the claim says it
increments to one) — though indeed no relocation or linking occurs. -/
theorem claim_c8_counterexample :
    okStats (process_conflicts (ParseResult.ok (JTop.obj docScenC8)) "backup"
      ["g"] (envOf [] [] [])) = some ({} : Stats) ∧
    ({} : Stats).skipped_excluded ≠ 1 ∧
    (okEnv (process_conflicts (ParseResult.ok (JTop.obj docScenC8)) "backup"
      ["g"] (envOf [] [] []))).map (fun e => (e.q, e.r, e.a)) =
      some (0, 0, 0) := by
  decide

/-- C8, amended: the exclusion check keys on the `not_symlinked` list, not
the conflicts mapping: every excluded group in that list is skipped with one
`skipped_excluded` increment and no external call at all (no status query,
no rename, no add) — while a group appearing only in the conflicts mapping
is never iterated and increments nothing. -/
theorem claim_c8 (group : String) (rest : List String)
    (backup_suffix : String) (exclude_groups : List String) (stats : Stats)
    (env : Env) (h : group ∈ exclude_groups) :
    process_group_list backup_suffix exclude_groups (group :: rest) stats env =
      process_group_list backup_suffix exclude_groups rest
        stats.incSkippedExcluded env := by
  simp only [process_group_list]
  rw [if_pos h]

/-- C8, witness: the amended theorem at a concrete excluded group. -/
theorem claim_c8_witness :
    process_group_list "backup" ["g"] ["g"] {} (envOf [] [] []) =
      process_group_list "backup" ["g"] [] (Stats.incSkippedExcluded {})
        (envOf [] [] []) :=
  claim_c8 "g" [] "backup" ["g"] {} (envOf [] [] []) (by decide)

/-- C9, counterexample: on the input string `3` — valid JSON that is not an
object — `process_conflicts` raises `AttributeError` at
`status_data.keys()`: the exception propagates out of the top-level
processing function and no summary is emitted. -/
theorem claim_c9_counterexample :
    raises (process_conflicts (ParseResult.ok JTop.nonObj) "backup" []
      (envOf [] [] [])) = true := by
  decide

/-- C9, amended: for every suffix, exclusion list and external behavior,
`process_conflicts` neither raises nor skips the summary as long as the
input either fails to parse or parses to a JSON object (of the script's
field shapes); a successfully parsed non-object value is the exception that
escapes (see the counterexample). -/
theorem claim_c9 (parse : ParseResult) (backup_suffix : String)
    (exclude_groups : List String) (env : Env)
    (h : parse ≠ ParseResult.ok JTop.nonObj) :
    ∃ s env2, process_conflicts parse backup_suffix exclude_groups env =
      Except.ok (s, log_summary s, env2) := by
  match parse with
  | ParseResult.err => exact ⟨_, _, rfl⟩
  | ParseResult.ok (JTop.obj d) => exact ⟨_, _, rfl⟩
  | ParseResult.ok JTop.nonObj => exact absurd rfl h

/-- C9, witness: the amended theorem at the malformed-input run. -/
theorem claim_c9_witness :
    ∃ s env2, process_conflicts ParseResult.err "backup" [] (envOf [] [] []) =
      Except.ok (s, log_summary s, env2) :=
  claim_c9 ParseResult.err "backup" [] (envOf [] [] []) (by decide)

/-- C10: whenever folder inference returns a path `p` for a non-empty
conflict list, `p` is not the filesystem root, its final path component
equals the group name exactly, and `p` is an ancestor of the first entry's
target path, reached by applying `dirname` at least once. -/
theorem claim_c10 (group : String) (e : ConflictEntry)
    (rest : List ConflictEntry) (p : Path)
    (h : find_project_folder group (e :: rest) = some p) :
    p ≠ [] ∧ basename p = group ∧
      ∃ k, 1 ≤ k ∧ p = dirnameIter k e.target_path := by
  obtain ⟨h1, hb, k, hk⟩ := findFrom_some group p (dirname e.target_path) h
  exact ⟨h1, hb, k + 1, Nat.succ_le_succ (Nat.zero_le k), hk⟩

/-- C10, witness: the theorem at the `nvim` scenario, where inference returns
`/home/u/.config/nvim` for target `/home/u/.config/nvim/init.lua`. -/
theorem claim_c10_witness :
    (["nvim", ".config", "u", "home"] : Path) ≠ [] ∧
    basename (["nvim", ".config", "u", "home"] : Path) = "nvim" ∧
    ∃ k, 1 ≤ k ∧ (["nvim", ".config", "u", "home"] : Path) =
      dirnameIter k ["init.lua", "nvim", ".config", "u", "home"] :=
  claim_c10 "nvim" ⟨["init.lua", "nvim", ".config", "u", "home"], "file exists"⟩
    [] ["nvim", ".config", "u", "home"] (by decide)

end Tuckr
